import Mathlib

/-!
Shallow embedding of the PathCanary partner-integration reference code:
the webhook rollback provider (Express server in the repository's
custom-provider example) and the Partner SDK client (sdk/client.ts).

JavaScript dynamic values that the handler inspects are modelled by `JVal`;
JS objects used as string-keyed maps are modelled by association lists.
Wall-clock values (`new Date().toISOString()`, `Date.now()` durations) and
generated request ids are passed in as parameters; the `duration_ms`
response field, being pure wall-clock measurement, is not modelled.
-/

namespace PC

/-- A JSON/JavaScript value as far as the handlers inspect one. -/
inductive JVal where
  | str (s : String)
  | bool (b : Bool)
  | num (n : Int)
  | null
deriving DecidableEq, Repr

/-- JavaScript truthiness of a value (`if (x)`.). -/
def JVal.truthy : JVal → Bool
  | .str s => if s = "" then false else true
  | .bool b => b
  | .num n => if n = 0 then false else true
  | .null => false

/-- JavaScript `String(x)` conversion, used both for object-property access
and for template-string interpolation. -/
def JVal.toText : JVal → String
  | .str s => s
  | .bool b => if b then "true" else "false"
  | .num n => toString n
  | .null => "null"

/-- Truthiness of a possibly-absent field (`undefined` is falsy). -/
def vtruthy : Option JVal → Bool
  | none => false
  | some v => v.truthy

/-- Check `typeof x === 'boolean'` on a possibly-absent field. -/
def isBool : Option JVal → Bool
  | some (JVal.bool _) => true
  | _ => false

/-- The boolean payload of a field known to be a boolean. -/
def getBool : Option JVal → Bool
  | some (JVal.bool b) => b
  | _ => false

/-- Check `typeof x === 'string'` on a possibly-absent field. -/
def isStr : Option JVal → Bool
  | some (JVal.str _) => true
  | _ => false

/-- First-match lookup in a string-keyed association list (JS object read). -/
def alookup {α : Type} : List (String × α) → String → Option α
  | [], _ => none
  | (k, v) :: rest, key => if k = key then some v else alookup rest key

/-- JS object write `o[k] = v`: replace the first binding of `k` in place,
or append a fresh binding when the key is absent. -/
def aset {α : Type} : List (String × α) → String → α → List (String × α)
  | [], k, v => [(k, v)]
  | (k0, v0) :: rest, k, v =>
      if k0 = k then (k, v) :: rest else (k0, v0) :: aset rest k v

/-- JavaScript `s.startsWith(p)` modelled on the character list. -/
def strStartsWith (s pre : String) : Bool :=
  List.isPrefixOf pre.data s.data

/-- JavaScript `s.substring(n)` modelled on the character list. -/
def strDrop (s : String) (n : Nat) : String :=
  ⟨s.data.drop n⟩

/-- JavaScript `s.substring(0, n)` modelled on the character list. -/
def strTake (s : String) (n : Nat) : String :=
  ⟨s.data.take n⟩

/-- A feature-flag record as stored in the provider's database. -/
structure Flag where
  id : String
  key : String
  enabled : Bool
  environment : String
  description : String
  created_at : String
  updated_at : String
  updated_by : Option String := none
  update_reason : Option String := none
deriving DecidableEq, Repr

/-- The four audit actions the provider records. -/
inductive AuditAction where
  | AUTH_FAILED
  | FLAG_NOT_FOUND
  | FLAG_TOGGLED
  | WEBHOOK_ERROR
deriving DecidableEq, Repr

/-- One audit-log record; fields not set by a given event are absent. -/
structure AuditEntry where
  timestamp : String
  action : AuditAction
  customer_id : Option String := none
  flag_key : Option JVal := none
  flag_id : Option String := none
  previous_state : Option Bool := none
  new_state : Option Bool := none
  incident_id : Option JVal := none
  incident_message : Option JVal := none
  request_id : Option String := none
  api_key : Option String := none
  ip : Option String := none
  user_agent : Option String := none
  metadata : Option (List (String × JVal)) := none
deriving DecidableEq, Repr

/-- The provider's in-memory database. -/
structure Database where
  apiKeys : List (String × String)
  featureFlags : List (String × List (String × Flag))
  auditLog : List AuditEntry
deriving DecidableEq, Repr

/-- The `logAuditEvent` helper: push the entry, then keep only the last 1000 entries
(`auditLog.slice(-1000)`). -/
def logAuditEvent (e : AuditEntry) (log : List AuditEntry) : List AuditEntry :=
  let l := log ++ [e]
  if l.length > 1000 then l.drop (l.length - 1000) else l

/-- The JSON body of an inbound webhook request, as destructured by the
handler; absent fields are `none`, `metadata` defaults to the empty object. -/
structure ReqBody where
  flag_key : Option JVal := none
  enabled : Option JVal := none
  incident_id : Option JVal := none
  incident_message : Option JVal := none
  source : Option JVal := none
  metadata : List (String × JVal) := []
deriving DecidableEq, Repr

/-- An inbound HTTP request to the webhook endpoint. -/
structure WebhookRequest where
  authHeader : Option String := none
  ip : String := ""
  userAgent : String := ""
  body : ReqBody
deriving DecidableEq, Repr

/-- The `provider_metadata` object of a webhook response (the wall-clock
`duration_ms` field is not modelled). -/
structure ProviderMeta where
  flag_id : Option String := none
  customer_id : Option String := none
  environment : Option JVal := none
  updated_at : Option String := none
deriving DecidableEq, Repr

/-- An HTTP response from the webhook endpoint: status code plus the JSON
body fields the handlers emit; fields not present in a given body are
`none` (the auth-failure bodies carry only `success` and `error`). -/
structure ProviderResponse where
  status : Nat
  success : Bool
  flag_key : Option JVal := none
  previous_state : Option Bool := none
  new_state : Option Bool := none
  error : Option String := none
  provider_metadata : Option ProviderMeta := none
deriving DecidableEq, Repr

/-- The 401 body sent when the `Authorization` header is absent or does not
start with `Bearer `. -/
def missingAuthResponse : ProviderResponse :=
  { status := 401, success := false,
    error := some "Missing or invalid Authorization header. Expected format: Bearer YOUR_API_KEY" }

/-- The `AUTH_FAILED` audit entry recorded for an unknown API key: the
presented key is cut to its first 10 characters plus `"..."`
(`apiKey.substring(0, 10) + '...'`). -/
def authFailedEntry (now ip ua apiKey : String) : AuditEntry :=
  { timestamp := now, action := .AUTH_FAILED,
    api_key := some (strTake apiKey 10 ++ "..."),
    ip := some ip, user_agent := some ua }

/-- The `validateApiKey` middleware: resolve the bearer token to a customer id,
or answer 401. An unknown token records an `AUTH_FAILED` audit entry. -/
def validateApiKey (db : Database) (authHeader : Option String) (ip ua now : String) :
    Except (ProviderResponse × Database) String :=
  match authHeader with
  | none => .error (missingAuthResponse, db)
  | some a =>
    if strStartsWith a "Bearer " = false then
      .error (missingAuthResponse, db)
    else
      let apiKey := strDrop a 7
      match alookup db.apiKeys apiKey with
      | none =>
          .error ({ status := 401, success := false, error := some "Invalid API key" },
            { db with auditLog := logAuditEvent (authFailedEntry now ip ua apiKey) db.auditLog })
      | some customerId => .ok customerId

/-- The body of the `POST /webhook/pathcanary` handler after authentication:
field validation in source order, flag lookup, idempotent toggle, audit. -/
def processRollback (db : Database) (customerId : String) (body : ReqBody)
    (now reqId : String) : ProviderResponse × Database :=
  if vtruthy body.flag_key = false then
    ({ status := 400, success := false, flag_key := some (JVal.str ""),
       previous_state := some false, new_state := some false,
       error := some "Missing required field: flag_key" }, db)
  else if isBool body.enabled = false then
    ({ status := 400, success := false, flag_key := body.flag_key,
       previous_state := some false, new_state := some false,
       error := some "Missing or invalid required field: enabled (must be boolean)" }, db)
  else if vtruthy body.incident_id = false ∨ vtruthy body.incident_message = false then
    ({ status := 400, success := false, flag_key := body.flag_key,
       previous_state := some false, new_state := some false,
       error := some "Missing required fields: incident_id, incident_message" }, db)
  else if body.source ≠ some (JVal.str "pathcanary") then
    ({ status := 400, success := false, flag_key := body.flag_key,
       previous_state := some false, new_state := some false,
       error := some "Invalid source. Expected \"pathcanary\"" }, db)
  else
    let enabled := getBool body.enabled
    let customerFlags := (alookup db.featureFlags customerId).getD []
    let keyStr := (body.flag_key.getD JVal.null).toText
    match alookup customerFlags keyStr with
    | none =>
        let entry : AuditEntry :=
          { timestamp := now, action := .FLAG_NOT_FOUND,
            customer_id := some customerId, flag_key := body.flag_key,
            incident_id := body.incident_id, request_id := some reqId }
        let envMeta := alookup body.metadata "environment"
        let meta : ProviderMeta :=
          { customer_id := some customerId,
            environment := some (if vtruthy envMeta then envMeta.getD JVal.null
                                 else JVal.str "production") }
        ({ status := 200, success := false, flag_key := body.flag_key,
           previous_state := some false, new_state := some false,
           error := some ("Feature flag '" ++ keyStr ++ "' not found for customer " ++ customerId),
           provider_metadata := some meta },
         { db with auditLog := logAuditEvent entry db.auditLog })
    | some flag =>
        let previousState := flag.enabled
        let updatedFlag : Flag :=
          { flag with
            enabled := enabled,
            updated_at := now,
            updated_by := some "pathcanary",
            update_reason := some ("Incident " ++ (body.incident_id.getD JVal.null).toText
              ++ ": " ++ (body.incident_message.getD JVal.null).toText) }
        let customerFlags2 := aset customerFlags keyStr updatedFlag
        let entry : AuditEntry :=
          { timestamp := now, action := .FLAG_TOGGLED,
            customer_id := some customerId, flag_key := body.flag_key,
            flag_id := some flag.id, previous_state := some previousState,
            new_state := some enabled, incident_id := body.incident_id,
            incident_message := body.incident_message,
            request_id := some reqId, metadata := some body.metadata }
        let meta : ProviderMeta :=
          { flag_id := some flag.id, customer_id := some customerId,
            environment := some (JVal.str flag.environment),
            updated_at := some now }
        ({ status := 200, success := true, flag_key := body.flag_key,
           previous_state := some previousState, new_state := some enabled,
           provider_metadata := some meta },
         { db with featureFlags := aset db.featureFlags customerId customerFlags2,
                   auditLog := logAuditEvent entry db.auditLog })

/-- The full `POST /webhook/pathcanary` endpoint: `validateApiKey` then the
handler body. `now` stands for `new Date().toISOString()` and `reqId` for
the request's correlation id. -/
def handleWebhook (db : Database) (req : WebhookRequest) (now reqId : String) :
    ProviderResponse × Database :=
  match validateApiKey db req.authHeader req.ip req.userAgent now with
  | .error r => r
  | .ok customerId => processRollback db customerId req.body now reqId

/-- The seed database hard-coded at the top of the reference server. -/
def initialDatabase : Database :=
  { apiKeys :=
      [("test_sk_abc123def456", "customer_001"),
       ("prod_sk_xyz789ghi012", "customer_002")],
    featureFlags :=
      [("customer_001",
        [("new-checkout-flow",
          { id := "flag_001", key := "new-checkout-flow", enabled := true,
            environment := "production", description := "New checkout experience",
            created_at := "2025-01-15T10:00:00Z", updated_at := "2025-01-15T10:00:00Z" }),
         ("beta-search",
          { id := "flag_002", key := "beta-search", enabled := true,
            environment := "production", description := "Beta search algorithm",
            created_at := "2025-02-01T12:00:00Z", updated_at := "2025-02-01T12:00:00Z" })]),
       ("customer_002",
        [("mobile-app-redesign",
          { id := "flag_003", key := "mobile-app-redesign", enabled := false,
            environment := "production", description := "Mobile app UI redesign",
            created_at := "2025-03-10T08:00:00Z", updated_at := "2025-03-10T08:00:00Z" })])],
    auditLog := [] }

/-- A fully valid rollback body with string-typed fields, as PathCanary
sends one. -/
def mkBody (k : String) (v : Bool) (i m : String) : ReqBody :=
  { flag_key := some (JVal.str k), enabled := some (JVal.bool v),
    incident_id := some (JVal.str i), incident_message := some (JVal.str m),
    source := some (JVal.str "pathcanary") }

/-- A webhook request from header and body. -/
def mkRequest (hdr : Option String) (ip ua : String) (b : ReqBody) : WebhookRequest :=
  { authHeader := hdr, ip := ip, userAgent := ua, body := b }

/-! ### Partner SDK client (sdk/client.ts) -/

/-- Client configuration `PartnerSDKConfig`: optional fields are those the constructor defaults. -/
structure PartnerSDKConfig where
  webhookUrl : String
  apiKey : String
  timeout : Option Nat := none
  retryAttempts : Option Nat := none
  debug : Option Bool := none
deriving DecidableEq, Repr

/-- The constructor's `retryAttempts: 3, ...config` spread. -/
def resolvedRetryAttempts (c : PartnerSDKConfig) : Nat :=
  c.retryAttempts.getD 3

/-- The constructor's `timeout: 30000, ...config` spread. -/
def resolvedTimeout (c : PartnerSDKConfig) : Nat :=
  c.timeout.getD 30000

/-- A parsed `PathCanaryRollbackResponse` as the SDK hands it back. -/
structure SdkResponse where
  success : Bool
  flag_key : String
  previous_state : Bool
  new_state : Bool
  error : Option String := none
deriving DecidableEq, Repr

/-- The outcome of one `testToggleFlag` call: a returned response, or a
thrown error (timeout, transport, or schema failure). -/
inductive CallOutcome where
  | ok (r : SdkResponse)
  | throws (msg : String)
deriving DecidableEq, Repr

/-- Backoff `Math.min(1000 * Math.pow(2, attempt - 1), 10000)`. -/
def backoffDelay (attempt : Nat) : Nat :=
  min (1000 * 2 ^ (attempt - 1)) 10000

/-- The aggregate error thrown after the retry loop exhausts its attempts;
a never-assigned `lastError` renders as JavaScript's `undefined`. -/
def aggregateMessage (n : Nat) (lastError : Option String) : String :=
  "Failed after " ++ toString n ++ " attempts: " ++ lastError.getD "undefined"

/-- The loop `for (attempt = 1; attempt <= retryAttempts; ...)` of
`testToggleFlagWithRetry`, with the iteration count made structural:
`remaining` is the number of attempts still allowed (`n - attempt + 1` at
entry). Returns the result together with the number of calls made and the
list of backoff sleeps performed, in order. -/
def retryLoop (outcomes : Nat → CallOutcome) (n : Nat) :
    Nat → Nat → Option String → Except String SdkResponse × Nat × List Nat
  | 0, _, lastError => (.error (aggregateMessage n lastError), 0, [])
  | remaining + 1, attempt, _ =>
    match outcomes attempt with
    | .ok r => (.ok r, 1, [])
    | .throws msg =>
      let rest := retryLoop outcomes n remaining (attempt + 1) (some msg)
      (rest.1, rest.2.1 + 1,
       if 0 < remaining then backoffDelay attempt :: rest.2.2 else rest.2.2)

/-- The client's `testToggleFlagWithRetry`, abstracted over the outcome of each would-be
`testToggleFlag` call (`outcomes i` is what the `i`-th call does). -/
def testToggleFlagWithRetry (outcomes : Nat → CallOutcome) (n : Nat) :
    Except String SdkResponse × Nat × List Nat :=
  retryLoop outcomes n n 1 none

/-- The client's `validateResponse`: required-field presence, field types, and the
`response.error && typeof response.error !== 'string'` guard, in source
order; the response body is modelled as a JSON object. -/
def validateResponse (response : List (String × JVal)) : Except String Unit :=
  let required := ["success", "flag_key", "previous_state", "new_state"]
  let missing := required.filter (fun f => (alookup response f).isNone)
  if missing ≠ [] then
    .error ("Invalid response: missing required fields: " ++ String.intercalate ", " missing)
  else if isBool (alookup response "success") = false then
    .error "Invalid response: \"success\" must be a boolean"
  else if isStr (alookup response "flag_key") = false then
    .error "Invalid response: \"flag_key\" must be a string"
  else if isBool (alookup response "previous_state") = false then
    .error "Invalid response: \"previous_state\" must be a boolean"
  else if isBool (alookup response "new_state") = false then
    .error "Invalid response: \"new_state\" must be a boolean"
  else if vtruthy (alookup response "error") = true ∧ isStr (alookup response "error") = false then
    .error "Invalid response: \"error\" must be a string"
  else
    .ok ()

/-- The client's `testToggleFlag` from the HTTP exchange onward: `status`/`text` are the
raw HTTP reply, `body` its parsed JSON object. Non-2xx replies throw the
transport error; 2xx bodies are returned after `validateResponse`. -/
def testToggleFlag (status : Nat) (text : String) (body : List (String × JVal)) :
    Except String (List (String × JVal)) :=
  if status < 200 ∨ 300 ≤ status then
    .error ("HTTP " ++ toString status ++ ": " ++ text)
  else
    match validateResponse body with
    | .error e => .error e
    | .ok _ => .ok body

/-! ### Helper lemmas about the store primitives -/

theorem alookup_aset_self {α : Type} (l : List (String × α)) (k : String) (v : α) :
    alookup (aset l k v) k = some v := by
  induction l with
  | nil => simp [aset, alookup]
  | cons p rest ih =>
      obtain ⟨k0, v0⟩ := p
      by_cases h : k0 = k
      · simp [aset, h, alookup]
      · simp [aset, h, alookup, ih]

theorem alookup_aset_ne {α : Type} (l : List (String × α)) (k k2 : String) (v : α)
    (h : k2 ≠ k) : alookup (aset l k v) k2 = alookup l k2 := by
  have h2 : ¬ k = k2 := fun he => h he.symm
  induction l with
  | nil => simp [aset, alookup, h2]
  | cons p rest ih =>
      obtain ⟨k0, v0⟩ := p
      by_cases h0 : k0 = k
      · subst h0
        simp [aset, alookup, h2]
      · simp [aset, h0, alookup, ih]

theorem logAuditEvent_eq_drop (e : AuditEntry) (log : List AuditEntry) :
    logAuditEvent e log = (log ++ [e]).drop (log.length + 1 - 1000) := by
  have hlen : (log ++ [e]).length = log.length + 1 := by simp
  show (if (log ++ [e]).length > 1000 then
          (log ++ [e]).drop ((log ++ [e]).length - 1000)
        else (log ++ [e])) = _
  rw [hlen]
  by_cases h : log.length + 1 > 1000
  · rw [if_pos h]
  · rw [if_neg h, Nat.sub_eq_zero_of_le (Nat.le_of_not_lt h), List.drop_zero]

theorem logAuditEvent_length (e : AuditEntry) (log : List AuditEntry) :
    (logAuditEvent e log).length = min (log.length + 1) 1000 := by
  rw [logAuditEvent_eq_drop, List.length_drop, List.length_append]
  simp only [List.length_cons, List.length_nil]
  omega

theorem logAuditEvent_getLast (e : AuditEntry) (log : List AuditEntry) :
    (logAuditEvent e log).getLast? = some e := by
  rw [logAuditEvent_eq_drop,
    List.drop_append_of_le_length (by omega : log.length + 1 - 1000 ≤ log.length)]
  exact List.getLast?_concat _

theorem mem_logAuditEvent {x e : AuditEntry} {log : List AuditEntry}
    (h : x ∈ logAuditEvent e log) : x ∈ log ∨ x = e := by
  rw [logAuditEvent_eq_drop] at h
  have h2 : x ∈ log ++ [e] := List.mem_of_mem_drop h
  simpa using h2

theorem foldl_logAuditEvent (es : List AuditEntry) :
    es.foldl (fun acc x => logAuditEvent x acc) [] = es.drop (es.length - 1000) := by
  induction es using List.reverseRecOn with
  | nil => rfl
  | append_singleton es x ih =>
      rw [List.foldl_append, List.foldl_cons, List.foldl_nil, ih, logAuditEvent_eq_drop,
        List.length_drop]
      rcases Nat.lt_or_ge es.length 1000 with h | h
      · have h2 : es.length - (es.length - 1000) + 1 - 1000 = 0 := by omega
        have h3 : (es ++ [x]).length - 1000 = 0 := by simp; omega
        have h1 : es.length - 1000 = 0 := by omega
        rw [h2, h3, h1]
        simp
      · have h2 : es.length - (es.length - 1000) + 1 - 1000 = 1 := by omega
        have h4 : (1 : Nat) ≤ (es.drop (es.length - 1000)).length := by
          rw [List.length_drop]; omega
        have h5 : (es ++ [x]).length - 1000 = es.length + 1 - 1000 := by simp
        rw [h2, h5, List.drop_append_of_le_length h4, List.drop_drop,
          List.drop_append_of_le_length (by omega : es.length + 1 - 1000 ≤ es.length)]
        have h6 : es.length - 1000 + 1 = es.length + 1 - 1000 := by omega
        rw [h6]


/-! ### Named forms of the handler's outputs (as computed by the source) -/

/-- The in-place flag update the success path performs. -/
def toggledFlag (f : Flag) (v : Bool) (now i m : String) : Flag :=
  { f with
    enabled := v,
    updated_at := now,
    updated_by := some "pathcanary",
    update_reason := some ("Incident " ++ i ++ ": " ++ m) }

/-- The FLAG_TOGGLED audit entry of the success path. -/
def toggledAuditEntry (cid k i m : String) (md : List (String × JVal)) (f : Flag)
    (v : Bool) (now rid : String) : AuditEntry :=
  { timestamp := now, action := .FLAG_TOGGLED, customer_id := some cid,
    flag_key := some (JVal.str k), flag_id := some f.id,
    previous_state := some f.enabled, new_state := some v,
    incident_id := some (JVal.str i), incident_message := some (JVal.str m),
    request_id := some rid, metadata := some md }

/-- The 200 success body of the toggle path. -/
def foundResponse (cid k : String) (f : Flag) (v : Bool) (now : String) : ProviderResponse :=
  { status := 200, success := true, flag_key := some (JVal.str k),
    previous_state := some f.enabled, new_state := some v,
    provider_metadata := some
      { flag_id := some f.id, customer_id := some cid,
        environment := some (JVal.str f.environment), updated_at := some now } }

/-- The 200 business-failure body of the unknown-flag path. -/
def notFoundResponse (cid k : String) (md : List (String × JVal)) : ProviderResponse :=
  { status := 200, success := false, flag_key := some (JVal.str k),
    previous_state := some false, new_state := some false,
    error := some ("Feature flag '" ++ k ++ "' not found for customer " ++ cid),
    provider_metadata := some
      { customer_id := some cid,
        environment := some (if vtruthy (alookup md "environment")
          then (alookup md "environment").getD JVal.null else JVal.str "production") } }

/-- The FLAG_NOT_FOUND audit entry of the unknown-flag path. -/
def notFoundAuditEntry (cid k i : String) (now rid : String) : AuditEntry :=
  { timestamp := now, action := .FLAG_NOT_FOUND, customer_id := some cid,
    flag_key := some (JVal.str k), incident_id := some (JVal.str i),
    request_id := some rid }

/-! ### Characterization of the handler's three post-validation paths -/

theorem validateApiKey_ok {db : Database} {a cid : String} (ip ua now : String)
    (hh : strStartsWith a "Bearer " = true)
    (ha : alookup db.apiKeys (strDrop a 7) = some cid) :
    validateApiKey db (some a) ip ua now = .ok cid := by
  simp [validateApiKey, hh, ha]

theorem handleWebhook_auth_ok {db : Database} {a cid : String} (ip ua : String)
    (body : ReqBody) (now rid : String)
    (hh : strStartsWith a "Bearer " = true)
    (ha : alookup db.apiKeys (strDrop a 7) = some cid) :
    handleWebhook db (mkRequest (some a) ip ua body) now rid =
      processRollback db cid body now rid := by
  simp [handleWebhook, mkRequest, validateApiKey_ok ip ua now hh ha]

theorem processRollback_found (db : Database) (cid : String) (body : ReqBody)
    (now rid k i m : String) (v : Bool) (cf : List (String × Flag)) (f : Flag)
    (hk : body.flag_key = some (JVal.str k)) (hk0 : k ≠ "")
    (he : body.enabled = some (JVal.bool v))
    (hi : body.incident_id = some (JVal.str i)) (hi0 : i ≠ "")
    (hm : body.incident_message = some (JVal.str m)) (hm0 : m ≠ "")
    (hs : body.source = some (JVal.str "pathcanary"))
    (hcf : (alookup db.featureFlags cid).getD [] = cf)
    (hf : alookup cf k = some f) :
    processRollback db cid body now rid =
      (foundResponse cid k f v now,
       { db with
         featureFlags := aset db.featureFlags cid (aset cf k (toggledFlag f v now i m)),
         auditLog := logAuditEvent (toggledAuditEntry cid k i m body.metadata f v now rid)
           db.auditLog }) := by
  simp [processRollback, hk, he, hi, hm, hs, vtruthy, JVal.truthy, hk0, hi0, hm0,
    isBool, getBool, JVal.toText, hcf, hf, foundResponse, toggledFlag, toggledAuditEntry]

theorem processRollback_notFound (db : Database) (cid : String) (body : ReqBody)
    (now rid k i m : String) (v : Bool) (cf : List (String × Flag))
    (hk : body.flag_key = some (JVal.str k)) (hk0 : k ≠ "")
    (he : body.enabled = some (JVal.bool v))
    (hi : body.incident_id = some (JVal.str i)) (hi0 : i ≠ "")
    (hm : body.incident_message = some (JVal.str m)) (hm0 : m ≠ "")
    (hs : body.source = some (JVal.str "pathcanary"))
    (hcf : (alookup db.featureFlags cid).getD [] = cf)
    (hf : alookup cf k = none) :
    processRollback db cid body now rid =
      (notFoundResponse cid k body.metadata,
       { db with
         auditLog := logAuditEvent (notFoundAuditEntry cid k i now rid) db.auditLog }) := by
  simp [processRollback, hk, he, hi, hm, hs, vtruthy, JVal.truthy, hk0, hi0, hm0,
    isBool, getBool, JVal.toText, hcf, hf, notFoundResponse, notFoundAuditEntry]

/-! ### C10: audit-log retention -/

/-- C10: the audit log is a bounded append-only window: each append keeps
exactly the most recent entries of the appended sequence in order (evicting
from the front and modifying no retained entry), the log never exceeds 1000
entries, every append ends with the new entry, and a whole history folded
through `logAuditEvent` from the empty log is exactly its most-recent-1000
suffix. -/
theorem audit_retention_invariant :
    (∀ (e : AuditEntry) (log : List AuditEntry),
      logAuditEvent e log = (log ++ [e]).drop (log.length + 1 - 1000)) ∧
    (∀ (e : AuditEntry) (log : List AuditEntry), (logAuditEvent e log).length ≤ 1000) ∧
    (∀ (e : AuditEntry) (log : List AuditEntry),
      (logAuditEvent e log).length = min (log.length + 1) 1000) ∧
    (∀ (e : AuditEntry) (log : List AuditEntry), (logAuditEvent e log).getLast? = some e) ∧
    (∀ es : List AuditEntry,
      es.foldl (fun acc x => logAuditEvent x acc) [] = es.drop (es.length - 1000)) := by
  refine ⟨logAuditEvent_eq_drop, ?_, logAuditEvent_length, logAuditEvent_getLast,
    foldl_logAuditEvent⟩
  intro e log
  rw [logAuditEvent_length]
  omega

/-! ### C4: auth-failure auditing -/

/-- C4 counterexample: a request whose Authorization header is absent is
rejected without recording any audit entry at all, so in particular no
AUTH_FAILED entry is recorded, contrary to the claim. -/
theorem auth_audit_counterexample :
    ¬ (∃ e, e ∈ (handleWebhook initialDatabase
        (mkRequest none "203.0.113.7" "PathCanary-Partner-SDK/1.0.0"
          (mkBody "new-checkout-flow" false "inc-1" "msg-1"))
        "2025-10-26T14:32:00.000Z" "req_1").2.auditLog ∧
      e.action = AuditAction.AUTH_FAILED) := by
  intro h
  obtain ⟨e, he, _⟩ := h
  simp [handleWebhook, validateApiKey, mkRequest, initialDatabase] at he

/-- C4 (amended): only a request whose bearer token maps to no known tenant
records an AUTH_FAILED audit entry; its api_key field is the token cut to
its first 10 characters followed by "...". A request with an absent or
malformed Authorization header is rejected leaving the database (audit log
included) untouched. -/
theorem auth_audit_amended :
    (∀ (db : Database) (ip ua : String) (body : ReqBody) (now rid a : String),
      strStartsWith a "Bearer " = true →
      alookup db.apiKeys (strDrop a 7) = none →
      (handleWebhook db (mkRequest (some a) ip ua body) now rid).2 =
        { db with auditLog := logAuditEvent (authFailedEntry now ip ua (strDrop a 7)) db.auditLog }) ∧
    (∀ (db : Database) (ip ua : String) (body : ReqBody) (now rid : String),
      (handleWebhook db (mkRequest none ip ua body) now rid).2 = db) ∧
    (∀ (db : Database) (ip ua : String) (body : ReqBody) (now rid a : String),
      strStartsWith a "Bearer " = false →
      (handleWebhook db (mkRequest (some a) ip ua body) now rid).2 = db) := by
  refine ⟨?_, ?_, ?_⟩
  · intro db ip ua body now rid a hh ha
    simp [handleWebhook, mkRequest, validateApiKey, hh, ha]
  · intro db ip ua body now rid
    simp [handleWebhook, mkRequest, validateApiKey]
  · intro db ip ua body now rid a hh
    simp [handleWebhook, mkRequest, validateApiKey, hh]

/-- Witness for the amended C4: a concrete unknown token records a truncated
AUTH_FAILED entry. -/
theorem auth_audit_amended_witness :
    (handleWebhook initialDatabase
        (mkRequest (some "Bearer invalid_key_123") "198.51.100.9" "curl/8.0"
          (mkBody "new-checkout-flow" false "inc-1" "msg-1")) "T0" "req_0").2 =
      { initialDatabase with auditLog := logAuditEvent (authFailedEntry "T0" "198.51.100.9" "curl/8.0" (strDrop "Bearer invalid_key_123" 7)) initialDatabase.auditLog } :=
  auth_audit_amended.1 initialDatabase "198.51.100.9" "curl/8.0"
    (mkBody "new-checkout-flow" false "inc-1" "msg-1") "T0" "req_0" "Bearer invalid_key_123"
    (by decide) (by decide)

/-! ### C5: auth gate frame property -/

/-- C5: any webhook request lacking a valid bearer token (header absent,
header malformed, or token unknown) gets HTTP 401 with `success:false` and
an error message, leaves every flag and the API-key table unchanged, and
appends no FLAG_TOGGLED audit entry (any entry appended is AUTH_FAILED). -/
theorem webhook_auth_gate (db : Database) (req : WebhookRequest) (now rid : String)
    (h : req.authHeader = none ∨
      (∃ a, req.authHeader = some a ∧ strStartsWith a "Bearer " = false) ∨
      (∃ a, req.authHeader = some a ∧ strStartsWith a "Bearer " = true ∧
        alookup db.apiKeys (strDrop a 7) = none)) :
    (handleWebhook db req now rid).1.status = 401 ∧
    (handleWebhook db req now rid).1.success = false ∧
    (handleWebhook db req now rid).1.error.isSome = true ∧
    (handleWebhook db req now rid).2.featureFlags = db.featureFlags ∧
    (handleWebhook db req now rid).2.apiKeys = db.apiKeys ∧
    (∀ e, e ∈ (handleWebhook db req now rid).2.auditLog →
      e ∈ db.auditLog ∨ e.action = AuditAction.AUTH_FAILED) := by
  rcases h with h | ⟨a, ha, hs⟩ | ⟨a, ha, hs, hn⟩
  · have hw : handleWebhook db req now rid = (missingAuthResponse, db) := by
      simp [handleWebhook, validateApiKey, h]
    rw [hw]
    exact ⟨rfl, rfl, rfl, rfl, rfl, fun e he => Or.inl he⟩
  · have hw : handleWebhook db req now rid = (missingAuthResponse, db) := by
      simp [handleWebhook, validateApiKey, ha, hs]
    rw [hw]
    exact ⟨rfl, rfl, rfl, rfl, rfl, fun e he => Or.inl he⟩
  · have hw : handleWebhook db req now rid =
        ({ status := 401, success := false, error := some "Invalid API key" },
         { db with auditLog := logAuditEvent (authFailedEntry now req.ip req.userAgent (strDrop a 7)) db.auditLog }) := by
      simp [handleWebhook, validateApiKey, ha, hs, hn]
    rw [hw]
    refine ⟨rfl, rfl, rfl, rfl, rfl, ?_⟩
    intro e he
    rcases mem_logAuditEvent he with h1 | h1
    · exact Or.inl h1
    · subst h1
      exact Or.inr rfl

/-- Witness for C5 at a concrete unknown token against the seed database. -/
theorem webhook_auth_gate_witness :
    (handleWebhook initialDatabase
        (mkRequest (some "Bearer unknown_token_1") "" "" (mkBody "beta-search" false "i1" "m1"))
        "T0" "r0").1.status = 401 ∧
    (handleWebhook initialDatabase
        (mkRequest (some "Bearer unknown_token_1") "" "" (mkBody "beta-search" false "i1" "m1"))
        "T0" "r0").1.success = false ∧
    (handleWebhook initialDatabase
        (mkRequest (some "Bearer unknown_token_1") "" "" (mkBody "beta-search" false "i1" "m1"))
        "T0" "r0").2.featureFlags = initialDatabase.featureFlags := by
  have h := webhook_auth_gate initialDatabase
    (mkRequest (some "Bearer unknown_token_1") "" "" (mkBody "beta-search" false "i1" "m1"))
    "T0" "r0"
    (Or.inr (Or.inr ⟨"Bearer unknown_token_1", rfl, by decide, by decide⟩))
  exact ⟨h.1, h.2.1, h.2.2.2.1⟩

/-! ### C3: unknown flag -/

/-- C3: an authenticated, fully valid request naming a flag the tenant does
not have gets HTTP 200 (not an error status) with `success:false`,
`previous_state:false`, `new_state:false`, an error string containing the
flag key, a FLAG_NOT_FOUND audit entry appended, and no flag or API-key
state changed. -/
theorem webhook_unknown_flag (db : Database) (a cid ip ua k i m now rid : String)
    (v : Bool) (cf : List (String × Flag))
    (hh : strStartsWith a "Bearer " = true)
    (ha : alookup db.apiKeys (strDrop a 7) = some cid)
    (hcf : (alookup db.featureFlags cid).getD [] = cf)
    (hf : alookup cf k = none)
    (hk0 : k ≠ "") (hi0 : i ≠ "") (hm0 : m ≠ "") :
    (handleWebhook db (mkRequest (some a) ip ua (mkBody k v i m)) now rid).1 =
      notFoundResponse cid k [] ∧
    (handleWebhook db (mkRequest (some a) ip ua (mkBody k v i m)) now rid).1.status = 200 ∧
    (∃ pre post, (handleWebhook db (mkRequest (some a) ip ua (mkBody k v i m)) now rid).1.error
      = some (pre ++ k ++ post)) ∧
    (handleWebhook db (mkRequest (some a) ip ua (mkBody k v i m)) now rid).2.featureFlags
      = db.featureFlags ∧
    (handleWebhook db (mkRequest (some a) ip ua (mkBody k v i m)) now rid).2.apiKeys
      = db.apiKeys ∧
    (∃ e, (handleWebhook db (mkRequest (some a) ip ua (mkBody k v i m)) now rid).2.auditLog
        = logAuditEvent e db.auditLog ∧
      e.action = AuditAction.FLAG_NOT_FOUND ∧ e.flag_key = some (JVal.str k) ∧
      (handleWebhook db (mkRequest (some a) ip ua (mkBody k v i m)) now rid).2.auditLog.getLast?
        = some e) := by
  have hw : handleWebhook db (mkRequest (some a) ip ua (mkBody k v i m)) now rid =
      processRollback db cid (mkBody k v i m) now rid :=
    handleWebhook_auth_ok ip ua (mkBody k v i m) now rid hh ha
  have hp := processRollback_notFound db cid (mkBody k v i m) now rid k i m v cf
    rfl hk0 rfl rfl hi0 rfl hm0 rfl hcf hf
  rw [hw, hp]
  refine ⟨rfl, rfl,
    ⟨"Feature flag '", "' not found for customer " ++ cid, ?_⟩, rfl, rfl,
    ⟨notFoundAuditEntry cid k i now rid, rfl, rfl, rfl, logAuditEvent_getLast _ _⟩⟩
  show some ("Feature flag '" ++ k ++ "' not found for customer " ++ cid) = _
  rw [String.append_assoc]

/-- Witness for C3: the seed tenant asking for a nonexistent key. -/
theorem webhook_unknown_flag_witness :
    (handleWebhook initialDatabase
        (mkRequest (some "Bearer test_sk_abc123def456") "" ""
          (mkBody "does-not-exist" false "inc-9" "msg-9")) "T3" "r3").1 =
      notFoundResponse "customer_001" "does-not-exist" [] ∧
    (∃ pre post, (handleWebhook initialDatabase
        (mkRequest (some "Bearer test_sk_abc123def456") "" ""
          (mkBody "does-not-exist" false "inc-9" "msg-9")) "T3" "r3").1.error
      = some (pre ++ "does-not-exist" ++ post)) ∧
    (handleWebhook initialDatabase
        (mkRequest (some "Bearer test_sk_abc123def456") "" ""
          (mkBody "does-not-exist" false "inc-9" "msg-9")) "T3" "r3").2.featureFlags
      = initialDatabase.featureFlags := by
  have h := webhook_unknown_flag initialDatabase "Bearer test_sk_abc123def456" "customer_001"
    "" "" "does-not-exist" "inc-9" "msg-9" "T3" "r3" false
    ((alookup initialDatabase.featureFlags "customer_001").getD [])
    (by decide) (by decide) rfl (by decide) (by decide) (by decide) (by decide)
  exact ⟨h.1, h.2.2.1, h.2.2.2.1⟩

/-- Full characterization of an authenticated toggle of an existing flag,
from the HTTP request to the updated database. -/
theorem handleWebhook_found {db : Database} (a cid ip ua k i m now rid : String)
    (v : Bool) {cf : List (String × Flag)} {f : Flag}
    (hh : strStartsWith a "Bearer " = true)
    (ha : alookup db.apiKeys (strDrop a 7) = some cid)
    (hcf : (alookup db.featureFlags cid).getD [] = cf)
    (hf : alookup cf k = some f)
    (hk0 : k ≠ "") (hi0 : i ≠ "") (hm0 : m ≠ "") :
    handleWebhook db (mkRequest (some a) ip ua (mkBody k v i m)) now rid =
      (foundResponse cid k f v now,
       { db with
         featureFlags := aset db.featureFlags cid (aset cf k (toggledFlag f v now i m)),
         auditLog := logAuditEvent (toggledAuditEntry cid k i m [] f v now rid)
           db.auditLog }) := by
  have hw : handleWebhook db (mkRequest (some a) ip ua (mkBody k v i m)) now rid =
      processRollback db cid (mkBody k v i m) now rid :=
    handleWebhook_auth_ok ip ua (mkBody k v i m) now rid hh ha
  have hp := processRollback_found db cid (mkBody k v i m) now rid k i m v cf f
    rfl hk0 rfl rfl hi0 rfl hm0 rfl hcf hf
  rw [hw, hp]
  simp [mkBody]

/-! ### C1: idempotence of the toggle -/

/-- C1: two consecutive valid rollback requests for the same existing flag
with the same target state `v` both succeed with `new_state = v`, and the
second response's `previous_state` is `v`, i.e. the first response's
`new_state`. -/
theorem webhook_toggle_idempotent (db : Database)
    (a cid ip ua k i1 m1 i2 m2 now1 now2 rid1 rid2 : String) (v : Bool)
    (cf : List (String × Flag)) (f : Flag)
    (hh : strStartsWith a "Bearer " = true)
    (ha : alookup db.apiKeys (strDrop a 7) = some cid)
    (hcf : (alookup db.featureFlags cid).getD [] = cf)
    (hf : alookup cf k = some f)
    (hk0 : k ≠ "") (hi10 : i1 ≠ "") (hm10 : m1 ≠ "") (hi20 : i2 ≠ "") (hm20 : m2 ≠ "") :
    (handleWebhook db (mkRequest (some a) ip ua (mkBody k v i1 m1)) now1 rid1).1.status = 200 ∧
    (handleWebhook db (mkRequest (some a) ip ua (mkBody k v i1 m1)) now1 rid1).1.success = true ∧
    (handleWebhook db (mkRequest (some a) ip ua (mkBody k v i1 m1)) now1 rid1).1.new_state
      = some v ∧
    (handleWebhook (handleWebhook db (mkRequest (some a) ip ua (mkBody k v i1 m1)) now1 rid1).2
        (mkRequest (some a) ip ua (mkBody k v i2 m2)) now2 rid2).1.status = 200 ∧
    (handleWebhook (handleWebhook db (mkRequest (some a) ip ua (mkBody k v i1 m1)) now1 rid1).2
        (mkRequest (some a) ip ua (mkBody k v i2 m2)) now2 rid2).1.success = true ∧
    (handleWebhook (handleWebhook db (mkRequest (some a) ip ua (mkBody k v i1 m1)) now1 rid1).2
        (mkRequest (some a) ip ua (mkBody k v i2 m2)) now2 rid2).1.new_state = some v ∧
    (handleWebhook (handleWebhook db (mkRequest (some a) ip ua (mkBody k v i1 m1)) now1 rid1).2
        (mkRequest (some a) ip ua (mkBody k v i2 m2)) now2 rid2).1.previous_state = some v ∧
    (handleWebhook (handleWebhook db (mkRequest (some a) ip ua (mkBody k v i1 m1)) now1 rid1).2
        (mkRequest (some a) ip ua (mkBody k v i2 m2)) now2 rid2).1.previous_state
      = (handleWebhook db (mkRequest (some a) ip ua (mkBody k v i1 m1)) now1 rid1).1.new_state := by
  rw [handleWebhook_found a cid ip ua k i1 m1 now1 rid1 v hh ha hcf hf hk0 hi10 hm10]
  dsimp only
  have ha2 : alookup ({ db with
      featureFlags := aset db.featureFlags cid (aset cf k (toggledFlag f v now1 i1 m1)),
      auditLog := logAuditEvent (toggledAuditEntry cid k i1 m1 [] f v now1 rid1) db.auditLog
    } : Database).apiKeys (strDrop a 7) = some cid := ha
  have hcf2 : (alookup ({ db with
      featureFlags := aset db.featureFlags cid (aset cf k (toggledFlag f v now1 i1 m1)),
      auditLog := logAuditEvent (toggledAuditEntry cid k i1 m1 [] f v now1 rid1) db.auditLog
    } : Database).featureFlags cid).getD []
      = aset cf k (toggledFlag f v now1 i1 m1) := by
    show (alookup (aset db.featureFlags cid (aset cf k (toggledFlag f v now1 i1 m1))) cid).getD []
      = aset cf k (toggledFlag f v now1 i1 m1)
    rw [alookup_aset_self]
    rfl
  have hf2 : alookup (aset cf k (toggledFlag f v now1 i1 m1)) k
      = some (toggledFlag f v now1 i1 m1) := alookup_aset_self cf k _
  rw [handleWebhook_found a cid ip ua k i2 m2 now2 rid2 v hh ha2 hcf2 hf2 hk0 hi20 hm20]
  simp [foundResponse, toggledFlag]

/-- Witness for C1: toggling `new-checkout-flow` off twice on the seed
database. -/
theorem webhook_toggle_idempotent_witness :
    (handleWebhook initialDatabase
        (mkRequest (some "Bearer test_sk_abc123def456") "" ""
          (mkBody "new-checkout-flow" false "inc-a" "msg-a")) "TA" "rA").1.new_state
      = some false ∧
    (handleWebhook (handleWebhook initialDatabase
        (mkRequest (some "Bearer test_sk_abc123def456") "" ""
          (mkBody "new-checkout-flow" false "inc-a" "msg-a")) "TA" "rA").2
        (mkRequest (some "Bearer test_sk_abc123def456") "" ""
          (mkBody "new-checkout-flow" false "inc-b" "msg-b")) "TB" "rB").1.success = true ∧
    (handleWebhook (handleWebhook initialDatabase
        (mkRequest (some "Bearer test_sk_abc123def456") "" ""
          (mkBody "new-checkout-flow" false "inc-a" "msg-a")) "TA" "rA").2
        (mkRequest (some "Bearer test_sk_abc123def456") "" ""
          (mkBody "new-checkout-flow" false "inc-b" "msg-b")) "TB" "rB").1.new_state
      = some false ∧
    (handleWebhook (handleWebhook initialDatabase
        (mkRequest (some "Bearer test_sk_abc123def456") "" ""
          (mkBody "new-checkout-flow" false "inc-a" "msg-a")) "TA" "rA").2
        (mkRequest (some "Bearer test_sk_abc123def456") "" ""
          (mkBody "new-checkout-flow" false "inc-b" "msg-b")) "TB" "rB").1.previous_state
      = some false := by
  have h := webhook_toggle_idempotent initialDatabase "Bearer test_sk_abc123def456"
    "customer_001" "" "" "new-checkout-flow" "inc-a" "msg-a" "inc-b" "msg-b"
    "TA" "TB" "rA" "rB" false
    ((alookup initialDatabase.featureFlags "customer_001").getD [])
    { id := "flag_001", key := "new-checkout-flow", enabled := true,
      environment := "production", description := "New checkout experience",
      created_at := "2025-01-15T10:00:00Z", updated_at := "2025-01-15T10:00:00Z" }
    (by decide) (by decide) rfl (by decide) (by decide) (by decide) (by decide)
    (by decide) (by decide)
  exact ⟨h.2.2.1, h.2.2.2.2.1, h.2.2.2.2.2.1, h.2.2.2.2.2.2.1⟩

/-! ### C9: toggle frame property -/

/-- C9: a successful toggle rewrites only the targeted flag record — and of
it only `enabled`, `updated_at`, `updated_by`, `update_reason` — while every
other flag of the tenant, every other tenant's flags, and the API-key table
are unchanged. -/
theorem webhook_toggle_frame (db : Database) (a cid ip ua k i m now rid : String)
    (v : Bool) (cf : List (String × Flag)) (f : Flag)
    (hh : strStartsWith a "Bearer " = true)
    (ha : alookup db.apiKeys (strDrop a 7) = some cid)
    (hcf : (alookup db.featureFlags cid).getD [] = cf)
    (hf : alookup cf k = some f)
    (hk0 : k ≠ "") (hi0 : i ≠ "") (hm0 : m ≠ "") :
    (handleWebhook db (mkRequest (some a) ip ua (mkBody k v i m)) now rid).1.success = true ∧
    (handleWebhook db (mkRequest (some a) ip ua (mkBody k v i m)) now rid).2.apiKeys
      = db.apiKeys ∧
    (∀ cid2, cid2 ≠ cid →
      alookup (handleWebhook db (mkRequest (some a) ip ua (mkBody k v i m)) now rid).2.featureFlags cid2
        = alookup db.featureFlags cid2) ∧
    (∀ k2, k2 ≠ k →
      alookup ((alookup (handleWebhook db (mkRequest (some a) ip ua (mkBody k v i m)) now rid).2.featureFlags cid).getD []) k2
        = alookup cf k2) ∧
    alookup ((alookup (handleWebhook db (mkRequest (some a) ip ua (mkBody k v i m)) now rid).2.featureFlags cid).getD []) k
      = some (toggledFlag f v now i m) ∧
    (toggledFlag f v now i m).id = f.id ∧
    (toggledFlag f v now i m).key = f.key ∧
    (toggledFlag f v now i m).environment = f.environment ∧
    (toggledFlag f v now i m).description = f.description ∧
    (toggledFlag f v now i m).created_at = f.created_at ∧
    (toggledFlag f v now i m).enabled = v ∧
    (toggledFlag f v now i m).updated_at = now ∧
    (toggledFlag f v now i m).updated_by = some "pathcanary" ∧
    (toggledFlag f v now i m).update_reason = some ("Incident " ++ i ++ ": " ++ m) := by
  rw [handleWebhook_found a cid ip ua k i m now rid v hh ha hcf hf hk0 hi0 hm0]
  dsimp only
  have hself : (alookup (aset db.featureFlags cid (aset cf k (toggledFlag f v now i m))) cid).getD []
      = aset cf k (toggledFlag f v now i m) := by
    rw [alookup_aset_self]
    rfl
  refine ⟨by simp [foundResponse], rfl, ?_, ?_, ?_, rfl, rfl, rfl, rfl, rfl, rfl, rfl, rfl, rfl⟩
  · intro cid2 hne
    exact alookup_aset_ne db.featureFlags cid cid2 _ hne
  · intro k2 hne
    rw [hself]
    exact alookup_aset_ne cf k k2 _ hne
  · rw [hself]
    exact alookup_aset_self cf k _

/-- Witness for C9 on the seed database: toggling `new-checkout-flow` leaves
`customer_002`'s flags, the sibling flag `beta-search`, and the API keys
untouched. -/
theorem webhook_toggle_frame_witness :
    (handleWebhook initialDatabase
        (mkRequest (some "Bearer test_sk_abc123def456") "" ""
          (mkBody "new-checkout-flow" false "inc-f" "msg-f")) "TF" "rF").2.apiKeys
      = initialDatabase.apiKeys ∧
    alookup (handleWebhook initialDatabase
        (mkRequest (some "Bearer test_sk_abc123def456") "" ""
          (mkBody "new-checkout-flow" false "inc-f" "msg-f")) "TF" "rF").2.featureFlags
        "customer_002"
      = alookup initialDatabase.featureFlags "customer_002" ∧
    alookup ((alookup (handleWebhook initialDatabase
        (mkRequest (some "Bearer test_sk_abc123def456") "" ""
          (mkBody "new-checkout-flow" false "inc-f" "msg-f")) "TF" "rF").2.featureFlags
        "customer_001").getD []) "beta-search"
      = alookup ((alookup initialDatabase.featureFlags "customer_001").getD []) "beta-search" := by
  have h := webhook_toggle_frame initialDatabase "Bearer test_sk_abc123def456" "customer_001"
    "" "" "new-checkout-flow" "inc-f" "msg-f" "TF" "rF" false
    ((alookup initialDatabase.featureFlags "customer_001").getD [])
    { id := "flag_001", key := "new-checkout-flow", enabled := true,
      environment := "production", description := "New checkout experience",
      created_at := "2025-01-15T10:00:00Z", updated_at := "2025-01-15T10:00:00Z" }
    (by decide) (by decide) rfl (by decide) (by decide) (by decide) (by decide)
  exact ⟨h.2.1, h.2.2.1 "customer_002" (by decide),
    h.2.2.2.1 "beta-search" (by decide)⟩

/-! ### C6: round trip of flag_key -/

/-- C6: every authenticated request that passes the four validation checks —
whether or not the flag exists — gets a response whose `flag_key` equals the
request's `flag_key`. -/
theorem webhook_round_trip (db : Database) (a cid ip ua now rid : String) (body : ReqBody)
    (hh : strStartsWith a "Bearer " = true)
    (ha : alookup db.apiKeys (strDrop a 7) = some cid)
    (h1 : vtruthy body.flag_key = true)
    (h2 : isBool body.enabled = true)
    (h3 : vtruthy body.incident_id = true)
    (h4 : vtruthy body.incident_message = true)
    (h5 : body.source = some (JVal.str "pathcanary")) :
    (handleWebhook db (mkRequest (some a) ip ua body) now rid).1.flag_key = body.flag_key := by
  rw [handleWebhook_auth_ok ip ua body now rid hh ha]
  simp only [processRollback, h1, h2, h3, h4, h5]
  cases hcase : alookup ((alookup db.featureFlags cid).getD [])
      ((body.flag_key.getD JVal.null).toText) with
  | none => simp [hcase]
  | some flag => simp [hcase]

/-- Witness for C6: both the existing-flag and the unknown-flag case echo
the key. -/
theorem webhook_round_trip_witness :
    (handleWebhook initialDatabase
        (mkRequest (some "Bearer test_sk_abc123def456") "" ""
          (mkBody "new-checkout-flow" false "inc-r" "msg-r")) "TR" "rR").1.flag_key
      = some (JVal.str "new-checkout-flow") ∧
    (handleWebhook initialDatabase
        (mkRequest (some "Bearer test_sk_abc123def456") "" ""
          (mkBody "ghost-flag" true "inc-r" "msg-r")) "TR" "rR").1.flag_key
      = some (JVal.str "ghost-flag") := by
  have h1 := webhook_round_trip initialDatabase "Bearer test_sk_abc123def456" "customer_001"
    "" "" "TR" "rR" (mkBody "new-checkout-flow" false "inc-r" "msg-r")
    (by decide) (by decide) (by decide) (by decide) (by decide) (by decide) rfl
  have h2 := webhook_round_trip initialDatabase "Bearer test_sk_abc123def456" "customer_001"
    "" "" "TR" "rR" (mkBody "ghost-flag" true "inc-r" "msg-r")
    (by decide) (by decide) (by decide) (by decide) (by decide) (by decide) rfl
  exact ⟨h1, h2⟩

/-! ### C2: validation gate -/

/-- C2: an authenticated request failing any of the four body checks gets
HTTP 400 with `success:false`, `previous_state:false`, `new_state:false`,
the error of the first failing check in source order (`flag_key`, then
`enabled`, then `incident_id`/`incident_message`, then `source`), an echoed
`flag_key` (empty string when the `flag_key` check itself failed), and the
database — flags, API keys and audit log — entirely unchanged, showing the
checks run before any flag lookup or mutation. -/
theorem webhook_validation_gate (db : Database) (a cid ip ua now rid : String) (body : ReqBody)
    (hh : strStartsWith a "Bearer " = true)
    (ha : alookup db.apiKeys (strDrop a 7) = some cid)
    (hfail : vtruthy body.flag_key = false ∨ isBool body.enabled = false ∨
      vtruthy body.incident_id = false ∨ vtruthy body.incident_message = false ∨
      body.source ≠ some (JVal.str "pathcanary")) :
    (handleWebhook db (mkRequest (some a) ip ua body) now rid).1.status = 400 ∧
    (handleWebhook db (mkRequest (some a) ip ua body) now rid).1.success = false ∧
    (handleWebhook db (mkRequest (some a) ip ua body) now rid).1.previous_state = some false ∧
    (handleWebhook db (mkRequest (some a) ip ua body) now rid).1.new_state = some false ∧
    (handleWebhook db (mkRequest (some a) ip ua body) now rid).1.flag_key
      = (if vtruthy body.flag_key = false then some (JVal.str "") else body.flag_key) ∧
    (handleWebhook db (mkRequest (some a) ip ua body) now rid).1.error
      = some (if vtruthy body.flag_key = false then "Missing required field: flag_key"
          else if isBool body.enabled = false then
            "Missing or invalid required field: enabled (must be boolean)"
          else if vtruthy body.incident_id = false ∨ vtruthy body.incident_message = false then
            "Missing required fields: incident_id, incident_message"
          else "Invalid source. Expected \"pathcanary\"") ∧
    (handleWebhook db (mkRequest (some a) ip ua body) now rid).2 = db := by
  rw [handleWebhook_auth_ok ip ua body now rid hh ha]
  by_cases c1 : vtruthy body.flag_key = false
  · simp [processRollback, c1]
  · by_cases c2 : isBool body.enabled = false
    · simp [processRollback, c1, c2]
    · by_cases c3 : vtruthy body.incident_id = false ∨ vtruthy body.incident_message = false
      · simp [processRollback, c1, c2, c3]
      · by_cases c5 : body.source = some (JVal.str "pathcanary")
        · rcases hfail with h | h | h | h | h
          · exact absurd h c1
          · exact absurd h c2
          · exact absurd (Or.inl h) c3
          · exact absurd (Or.inr h) c3
          · exact absurd c5 h
        · simp [processRollback, c1, c2, c3, c5]

/-- Witness for C2: a body with no flag_key is rejected with 400 and the
seed database is untouched. -/
theorem webhook_validation_gate_witness :
    (handleWebhook initialDatabase
        (mkRequest (some "Bearer test_sk_abc123def456") "" ""
          { enabled := some (JVal.bool false), incident_id := some (JVal.str "inc-v"),
            incident_message := some (JVal.str "msg-v"),
            source := some (JVal.str "pathcanary") }) "TV" "rV").1.status = 400 ∧
    (handleWebhook initialDatabase
        (mkRequest (some "Bearer test_sk_abc123def456") "" ""
          { enabled := some (JVal.bool false), incident_id := some (JVal.str "inc-v"),
            incident_message := some (JVal.str "msg-v"),
            source := some (JVal.str "pathcanary") }) "TV" "rV").1.error
      = some "Missing required field: flag_key" ∧
    (handleWebhook initialDatabase
        (mkRequest (some "Bearer test_sk_abc123def456") "" ""
          { enabled := some (JVal.bool false), incident_id := some (JVal.str "inc-v"),
            incident_message := some (JVal.str "msg-v"),
            source := some (JVal.str "pathcanary") }) "TV" "rV").2 = initialDatabase := by
  have h := webhook_validation_gate initialDatabase "Bearer test_sk_abc123def456" "customer_001"
    "" "" "TV" "rV"
    { enabled := some (JVal.bool false), incident_id := some (JVal.str "inc-v"),
      incident_message := some (JVal.str "msg-v"), source := some (JVal.str "pathcanary") }
    (by decide) (by decide) (Or.inl (by decide))
  refine ⟨h.1, ?_, h.2.2.2.2.2.2⟩
  have he := h.2.2.2.2.2.1
  simpa [vtruthy] using he

/-! ### C7: SDK retry policy -/

theorem retryLoop_calls_le (outcomes : Nat → CallOutcome) (n : Nat) :
    ∀ (remaining attempt : Nat) (last : Option String),
      (retryLoop outcomes n remaining attempt last).2.1 ≤ remaining := by
  intro remaining
  induction remaining with
  | zero =>
      intro attempt last
      simp [retryLoop]
  | succ rem ih =>
      intro attempt last
      cases h : outcomes attempt with
      | ok resp => simp [retryLoop, h]
      | throws msg =>
          simp only [retryLoop, h]
          have := ih (attempt + 1) (some msg)
          omega

theorem retryLoop_ok (outcomes : Nat → CallOutcome) (n : Nat) :
    ∀ (remaining attempt j : Nat) (last : Option String) (r : SdkResponse),
      attempt ≤ j → j < attempt + remaining →
      (∀ t, attempt ≤ t → t < j → ∃ msg, outcomes t = CallOutcome.throws msg) →
      outcomes j = CallOutcome.ok r →
      retryLoop outcomes n remaining attempt last =
        (.ok r, j - attempt + 1, (List.range' attempt (j - attempt)).map backoffDelay) := by
  intro remaining
  induction remaining with
  | zero =>
      intro attempt j last r h1 h2 h3 h4
      omega
  | succ rem ih =>
      intro attempt j last r h1 h2 h3 h4
      by_cases hj : j = attempt
      · subst hj
        simp [retryLoop, h4]
      · have hlt : attempt < j := by omega
        obtain ⟨msg, hmsg⟩ := h3 attempt (Nat.le_refl _) hlt
        have hrec := ih (attempt + 1) j (some msg) r (by omega) (by omega)
          (fun t ht1 ht2 => h3 t (by omega) ht2) h4
        have hrem : 0 < rem := by omega
        simp only [retryLoop, hmsg, hrec, if_pos hrem]
        have hc : j - (attempt + 1) + 1 + 1 = j - attempt + 1 := by omega
        have hr : j - attempt = j - (attempt + 1) + 1 := by omega
        rw [hc, hr, List.range'_succ attempt (j - (attempt + 1)) 1, List.map_cons]

theorem retryLoop_allfail (outcomes : Nat → CallOutcome) (n : Nat) :
    ∀ (remaining attempt : Nat) (last : Option String),
      (∀ t, attempt ≤ t → t < attempt + remaining + 1 →
        ∃ msg, outcomes t = CallOutcome.throws msg) →
      ∃ mlast, outcomes (attempt + remaining) = CallOutcome.throws mlast ∧
        retryLoop outcomes n (remaining + 1) attempt last =
          (.error (aggregateMessage n (some mlast)), remaining + 1,
           (List.range' attempt remaining).map backoffDelay) := by
  intro remaining
  induction remaining with
  | zero =>
      intro attempt last h
      obtain ⟨msg, hmsg⟩ := h attempt (Nat.le_refl _) (by omega)
      refine ⟨msg, by simpa using hmsg, ?_⟩
      simp [retryLoop, hmsg]
  | succ rem ih =>
      intro attempt last h
      obtain ⟨msg, hmsg⟩ := h attempt (Nat.le_refl _) (by omega)
      obtain ⟨mlast, hml, hrec⟩ := ih (attempt + 1) (some msg)
        (fun t ht1 ht2 => h t (by omega) (by omega))
      refine ⟨mlast, ?_, ?_⟩
      · rw [show attempt + (rem + 1) = attempt + 1 + rem by omega]
        exact hml
      · simp only [retryLoop] at hrec
        simp only [retryLoop, hmsg, hrec, if_pos (Nat.succ_pos rem)]
        rw [List.range'_succ attempt rem 1, List.map_cons]

/-- C7: the retry wrapper makes at most `retryAttempts` calls (default 3);
a call that returns — even a `success:false` business response — is handed
back immediately with no further attempts; each failed non-final attempt
sleeps `min(1000 * 2^(attempt-1), 10000)` ms; and when every attempt throws,
the wrapper throws an aggregate error naming the attempt count and the last
error's message. -/
theorem sdk_retry_policy :
    (∀ (outcomes : Nat → CallOutcome) (n : Nat),
      (testToggleFlagWithRetry outcomes n).2.1 ≤ n) ∧
    (∀ c : PartnerSDKConfig, c.retryAttempts = none → resolvedRetryAttempts c = 3) ∧
    (∀ attempt : Nat, backoffDelay attempt = min (1000 * 2 ^ (attempt - 1)) 10000) ∧
    (∀ (outcomes : Nat → CallOutcome) (n j : Nat) (r : SdkResponse),
      1 ≤ j → j ≤ n →
      (∀ t, 1 ≤ t → t < j → ∃ msg, outcomes t = CallOutcome.throws msg) →
      outcomes j = CallOutcome.ok r →
      testToggleFlagWithRetry outcomes n =
        (.ok r, j, (List.range' 1 (j - 1)).map backoffDelay)) ∧
    (∀ (outcomes : Nat → CallOutcome) (n : Nat),
      1 ≤ n →
      (∀ t, 1 ≤ t → t ≤ n → ∃ msg, outcomes t = CallOutcome.throws msg) →
      ∃ mlast, outcomes n = CallOutcome.throws mlast ∧
        testToggleFlagWithRetry outcomes n =
          (.error ("Failed after " ++ toString n ++ " attempts: " ++ mlast), n,
           (List.range' 1 (n - 1)).map backoffDelay)) := by
  refine ⟨?_, ?_, ?_, ?_, ?_⟩
  · intro outcomes n
    exact retryLoop_calls_le outcomes n n 1 none
  · intro c h
    simp [resolvedRetryAttempts, h]
  · intro attempt
    rfl
  · intro outcomes n j r h1 h2 h3 h4
    have h := retryLoop_ok outcomes n n 1 j none r h1 (by omega) h3 h4
    have hj : j - 1 + 1 = j := by omega
    rw [hj] at h
    exact h
  · intro outcomes n h1 h2
    obtain ⟨mlast, hml, hrec⟩ := retryLoop_allfail outcomes n (n - 1) 1 none
      (fun t ht1 ht2 => h2 t ht1 (by omega))
    have hn : n - 1 + 1 = n := by omega
    rw [hn] at hrec
    refine ⟨mlast, ?_, hrec⟩
    rw [show n = 1 + (n - 1) by omega]
    exact hml

/-- Witness for C7: attempt 1 throws, attempt 2 succeeds with
`retryAttempts = 3`: exactly two calls, one 1000 ms backoff, and the
response is returned as-is. -/
theorem sdk_retry_policy_witness :
    testToggleFlagWithRetry
      (fun t => if t = 1 then CallOutcome.throws "Request timeout after 30000ms"
        else CallOutcome.ok
          { success := true, flag_key := "new-checkout-flow",
            previous_state := true, new_state := false }) 3 =
      (.ok { success := true, flag_key := "new-checkout-flow",
             previous_state := true, new_state := false }, 2, [1000]) := by
  have h := sdk_retry_policy.2.2.2.1
    (fun t => if t = 1 then CallOutcome.throws "Request timeout after 30000ms"
      else CallOutcome.ok
        { success := true, flag_key := "new-checkout-flow",
          previous_state := true, new_state := false }) 3 2
    { success := true, flag_key := "new-checkout-flow",
      previous_state := true, new_state := false }
    (by omega) (by omega)
    (by
      intro t ht1 ht2
      have ht : t = 1 := by omega
      subst ht
      exact ⟨"Request timeout after 30000ms", rfl⟩)
    rfl
  rw [h]
  rfl

/-! ### C8: SDK response-schema validation -/

/-- C8 counterexample: a 200 body whose `error` field is the number 0 — a
present, non-string `error` — passes `validateResponse` (the source guard is
`response.error && typeof response.error !== 'string'`, and `0` is falsy),
so `testToggleFlag` returns it instead of failing with a schema error. -/
theorem sdk_schema_counterexample :
    alookup [("success", JVal.bool true), ("flag_key", JVal.str "new-checkout-flow"),
      ("previous_state", JVal.bool true), ("new_state", JVal.bool false),
      ("error", JVal.num 0)] "error" = some (JVal.num 0) ∧
    isStr (some (JVal.num 0)) = false ∧
    testToggleFlag 200 ""
      [("success", JVal.bool true), ("flag_key", JVal.str "new-checkout-flow"),
       ("previous_state", JVal.bool true), ("new_state", JVal.bool false),
       ("error", JVal.num 0)] =
      .ok [("success", JVal.bool true), ("flag_key", JVal.str "new-checkout-flow"),
           ("previous_state", JVal.bool true), ("new_state", JVal.bool false),
           ("error", JVal.num 0)] := by
  refine ⟨by decide, rfl, rfl⟩

theorem strdata_append (a b : String) : (a ++ b).data = a.data ++ b.data := by
  cases a
  cases b
  rfl

theorem bool_true_of_not_false {b : Bool} (h : ¬ b = false) : b = true := by
  cases b
  · exact absurd rfl h
  · rfl

theorem isNone_false_of_isBool {o : Option JVal} (h : isBool o = true) : o.isNone = false := by
  cases o
  · exact absurd h (by simp [isBool])
  · rfl

theorem isNone_false_of_isStr {o : Option JVal} (h : isStr o = true) : o.isNone = false := by
  cases o
  · exact absurd h (by simp [isStr])
  · rfl

/-- A schema-validation outcome determined by the field shapes: the body is
accepted exactly when the four required fields have the right types and the
`error` field, when truthy, is a string. -/
theorem validateResponse_ok_iff (body : List (String × JVal)) :
    validateResponse body = .ok () ↔
      (isBool (alookup body "success") = true ∧
       isStr (alookup body "flag_key") = true ∧
       isBool (alookup body "previous_state") = true ∧
       isBool (alookup body "new_state") = true ∧
       (vtruthy (alookup body "error") = false ∨ isStr (alookup body "error") = true)) := by
  constructor
  · intro h
    simp only [validateResponse] at h
    split_ifs at h with h1 h2 h3 h4 h5 h6
    refine ⟨bool_true_of_not_false h2, bool_true_of_not_false h3,
      bool_true_of_not_false h4, bool_true_of_not_false h5, ?_⟩
    cases hv : vtruthy (alookup body "error") with
    | false => exact Or.inl rfl
    | true =>
        cases hs : isStr (alookup body "error") with
        | false => exact absurd ⟨hv, hs⟩ h6
        | true => exact Or.inr rfl
  · rintro ⟨c1, c2, c3, c4, c5⟩
    have p1 := isNone_false_of_isBool c1
    have p2 := isNone_false_of_isStr c2
    have p3 := isNone_false_of_isBool c3
    have p4 := isNone_false_of_isBool c4
    have hm : (["success", "flag_key", "previous_state", "new_state"].filter
        (fun f => (alookup body f).isNone)) = [] := by
      simp [List.filter, p1, p2, p3, p4]
    rcases c5 with c5 | c5
    · simp [validateResponse, hm, c1, c2, c3, c4, c5]
    · simp [validateResponse, hm, c1, c2, c3, c4, c5]

/-- Every schema error message starts with `Invalid response: `. -/
theorem validateResponse_error_shape (body : List (String × JVal)) (e : String)
    (h : validateResponse body = .error e) : ∃ t, e = "Invalid response: " ++ t := by
  simp only [validateResponse] at h
  split_ifs at h with h1 h2 h3 h4 h5 h6 <;> simp only [Except.error.injEq] at h
  · refine ⟨"missing required fields: " ++ String.intercalate ", "
      (["success", "flag_key", "previous_state", "new_state"].filter
        (fun f => (alookup body f).isNone)), ?_⟩
    rw [← h,
      show ("Invalid response: missing required fields: " : String)
        = "Invalid response: " ++ "missing required fields: " by decide,
      String.append_assoc]
  · exact ⟨"\"success\" must be a boolean", by rw [← h]; decide⟩
  · exact ⟨"\"flag_key\" must be a string", by rw [← h]; decide⟩
  · exact ⟨"\"previous_state\" must be a boolean", by rw [← h]; decide⟩
  · exact ⟨"\"new_state\" must be a boolean", by rw [← h]; decide⟩
  · exact ⟨"\"error\" must be a string", by rw [← h]; decide⟩

/-- C8 (amended): on a 2xx response the SDK returns the parsed body exactly
when the four required fields are present with the right types and any
present truthy `error` field is a string (a falsy non-string `error`, such
as `0`, is accepted); any other 2xx body fails with a schema error of the
form `Invalid response: ...`, every non-2xx reply fails with a transport
error `HTTP <status>: <text>`, and the two message families never
coincide — so a schema failure is distinguishable both from a transport
failure and from a returned `success:false` business response (an `ok`
value rather than a thrown error). -/
theorem sdk_response_schema_amended :
    (∀ body : List (String × JVal),
      validateResponse body = .ok () ↔
        (isBool (alookup body "success") = true ∧
         isStr (alookup body "flag_key") = true ∧
         isBool (alookup body "previous_state") = true ∧
         isBool (alookup body "new_state") = true ∧
         (vtruthy (alookup body "error") = false ∨
          isStr (alookup body "error") = true))) ∧
    (∀ (status : Nat) (text : String) (body : List (String × JVal)),
      200 ≤ status → status < 300 → validateResponse body = .ok () →
      testToggleFlag status text body = .ok body) ∧
    (∀ (status : Nat) (text : String) (body : List (String × JVal)) (e : String),
      200 ≤ status → status < 300 → validateResponse body = .error e →
      testToggleFlag status text body = .error e ∧
        ∃ t, e = "Invalid response: " ++ t) ∧
    (∀ (status : Nat) (text : String) (body : List (String × JVal)),
      status < 200 ∨ 300 ≤ status →
      testToggleFlag status text body =
        .error ("HTTP " ++ toString status ++ ": " ++ text)) ∧
    (∀ t t2 : String, ("Invalid response: " ++ t) ≠ ("HTTP " ++ t2)) := by
  refine ⟨validateResponse_ok_iff, ?_, ?_, ?_, ?_⟩
  · intro status text body hs1 hs2 hv
    rw [testToggleFlag, if_neg (by omega), hv]
  · intro status text body e hs1 hs2 hv
    refine ⟨by rw [testToggleFlag, if_neg (by omega), hv], validateResponse_error_shape body e hv⟩
  · intro status text body h
    rw [testToggleFlag, if_pos h]
  · intro t t2 h
    have h2 := congrArg String.data h
    rw [strdata_append, strdata_append] at h2
    rw [show ("Invalid response: " : String).data = 'I' :: "nvalid response: ".data by decide,
      show ("HTTP " : String).data = 'H' :: "TTP ".data by decide,
      List.cons_append, List.cons_append] at h2
    injection h2 with h3 _
    exact absurd h3 (by decide)

/-- Witness for the amended C8: a well-formed 2xx body is returned, a
`success:false` body is likewise returned (not thrown), and a 500 reply is
a transport error. -/
theorem sdk_response_schema_amended_witness :
    testToggleFlag 200 ""
      [("success", JVal.bool true), ("flag_key", JVal.str "f1"),
       ("previous_state", JVal.bool true), ("new_state", JVal.bool false)] =
      .ok [("success", JVal.bool true), ("flag_key", JVal.str "f1"),
           ("previous_state", JVal.bool true), ("new_state", JVal.bool false)] ∧
    testToggleFlag 200 ""
      [("success", JVal.bool false), ("flag_key", JVal.str "f1"),
       ("previous_state", JVal.bool false), ("new_state", JVal.bool false),
       ("error", JVal.str "Feature flag 'f1' not found for customer customer_001")] =
      .ok [("success", JVal.bool false), ("flag_key", JVal.str "f1"),
           ("previous_state", JVal.bool false), ("new_state", JVal.bool false),
           ("error", JVal.str "Feature flag 'f1' not found for customer customer_001")] ∧
    testToggleFlag 500 "oops"
      [("success", JVal.bool true), ("flag_key", JVal.str "f1"),
       ("previous_state", JVal.bool true), ("new_state", JVal.bool false)] =
      .error ("HTTP " ++ toString 500 ++ ": " ++ "oops") := by
  refine ⟨?_, ?_, ?_⟩
  · exact sdk_response_schema_amended.2.1 200 ""
      [("success", JVal.bool true), ("flag_key", JVal.str "f1"),
       ("previous_state", JVal.bool true), ("new_state", JVal.bool false)]
      (by omega) (by omega) rfl
  · exact sdk_response_schema_amended.2.1 200 ""
      [("success", JVal.bool false), ("flag_key", JVal.str "f1"),
       ("previous_state", JVal.bool false), ("new_state", JVal.bool false),
       ("error", JVal.str "Feature flag 'f1' not found for customer customer_001")]
      (by omega) (by omega) rfl
  · exact sdk_response_schema_amended.2.2.2.1 500 "oops"
      [("success", JVal.bool true), ("flag_key", JVal.str "f1"),
       ("previous_state", JVal.bool true), ("new_state", JVal.bool false)]
      (by omega)

end PC
